import Mathlib

/-!
Shallow embedding of `build.py`, the Cloudflare SpeedTest multi-platform
packaging tool, and proofs about its platform mapping, build planning and
orchestration logic.

The external world (the filesystem, `platform.system()` / `platform.machine()`,
`sys.argv`, `sys.executable`, and the exit status of each `subprocess.check_call`)
is captured in a `World` record.  Each step of the script is embedded as a pure
function from `World` to a `StepResult` that records the boolean outcome, the
ordered list of subprocess invocations issued (each an argument list, exactly as
passed to `subprocess.check_call`), and the lines printed to the console.
-/

set_option autoImplicit false

namespace BuildPy

/-- Models Python `str.lower()` (ASCII case folding, which is all the script
relies on for platform names). -/
def pyLower (s : String) : String := String.mk (s.data.map Char.toLower)

/-- The OS name table of `get_platform_info` (`os_map` in `build.py`). -/
def os_map : List (String × String) :=
  [("darwin", "macos"), ("linux", "linux"), ("windows", "windows")]

/-- The architecture table of `get_platform_info` (`arch_map` in `build.py`). -/
def arch_map : List (String × String) :=
  [("x86_64", "amd64"), ("amd64", "amd64"), ("x64", "amd64"),
   ("arm64", "arm64"), ("aarch64", "arm64"),
   ("armv7l", "armhf"), ("armv8l", "armhf")]

/-- Models Python `dict.get(key, fallback)` over an association list. -/
def dictGet (d : List (String × String)) (k fallback : String) : String :=
  (d.lookup k).getD fallback

/-- `get_platform_info()`: lowercase the raw `platform.system()` and
`platform.machine()` values and translate them through the two tables, with the
lowercased raw value as identity fallback. -/
def get_platform_info (system machine : String) : String × String :=
  let s := pyLower system
  let m := pyLower machine
  (dictGet os_map s s, dictGet arch_map m m)

/-- The external facts the script consults plus the outcome of every external
command it may run. -/
structure World where
  /-- `os.path.exists("cloudflare_speedtest.py")` -/
  entry_exists : Bool
  /-- `os.path.exists("requirements.txt")` -/
  requirements_exists : Bool
  /-- raw `platform.system()` -/
  system : String
  /-- raw `platform.machine()` -/
  machine : String
  /-- `os.path.exists("/etc/apt")` -/
  apt_exists : Bool
  /-- `os.path.exists("/etc/apk")` -/
  apk_exists : Bool
  /-- `sys.argv` -/
  argv : List String
  /-- `sys.executable` -/
  executable : String
  /-- whether the package-manager invocation (apt or apk) exits with status 0 -/
  sysdep_call_ok : Bool
  /-- whether `pip install --upgrade pip` exits with status 0 -/
  pip_upgrade_ok : Bool
  /-- whether `pip install pyinstaller` exits with status 0 -/
  pyinstaller_install_ok : Bool
  /-- whether `pip install -r requirements.txt` exits with status 0 -/
  requirements_install_ok : Bool
  /-- whether the `pyinstaller` build invocation exits with status 0 -/
  build_call_ok : Bool
  deriving Repr, DecidableEq

/-- Outcome of one orchestration step: its boolean result, the subprocess
invocations it issued in order, and the console lines it printed in order. -/
structure StepResult where
  ok : Bool
  calls : List (List String)
  logs : List String
  deriving Repr, DecidableEq

/-- Console messages of `build.py`, kept verbatim (the dynamic detail of
caught `CalledProcessError` values is dropped from the two failure messages). -/
def msgEntryMissing : String := "❌ 错误：未找到主脚本 \x27cloudflare_speedtest.py\x27"

def msgReqMissing : String := "⚠️ 警告：未找到 \x27requirements.txt\x27，将跳过项目依赖安装"

def msgStaticLinuxOnly : String := "⚠️ 静态打包仅支持 Linux 环境，将跳过系统依赖安装"

def msgSysInstalling : String := "\n正在安装静态打包所需系统依赖..."

def msgSysDone : String := "✓ 系统依赖安装完成"

def msgSysFail : String := "✗ 系统依赖安装失败: "

def msgPyInstalling : String := "\n正在安装 Python 依赖..."

def msgPyDone : String := "✓ Python 依赖安装完成"

def msgPyFail : String := "✗ Python 依赖安装失败: "

def msgBuildFail : String := "\n✗ 打包失败: "

def msgAllDone : String := "\n🎉 所有打包任务完成！"

/-- `"="*60`, the banner separator line. -/
def sep : String := String.mk (List.replicate 60 '=')

/-- `check_necessary_files()`: entry script required, manifest optional. -/
def check_necessary_files (w : World) : Bool × List String :=
  if w.entry_exists = false then (false, [msgEntryMissing])
  else if w.requirements_exists = false then (true, [msgReqMissing])
  else (true, [])

/-- The single `check_call` argument list of the apt branch (note: one list,
`&&` and the second command passed as ordinary arguments to `sudo`). -/
def aptCmd : List String :=
  ["sudo", "apt", "update",
   "&&", "sudo", "apt", "install", "-y",
   "build-essential", "zlib1g-dev", "openssl-dev", "musl-dev"]

/-- The `check_call` argument list of the apk branch. -/
def apkCmd : List String :=
  ["apk", "add", "--no-cache", "build-base", "zlib-dev", "openssl-dev", "musl-dev"]

/-- `install_system_dependencies(is_static)`. -/
def install_system_dependencies (is_static : Bool) (w : World) : StepResult :=
  if is_static = false then ⟨true, [], []⟩
  else if pyLower w.system ≠ "linux" then ⟨true, [], [msgStaticLinuxOnly]⟩
  else if w.apt_exists then
    if w.sysdep_call_ok then ⟨true, [aptCmd], [msgSysInstalling, msgSysDone]⟩
    else ⟨false, [aptCmd], [msgSysInstalling, msgSysFail]⟩
  else if w.apk_exists then
    if w.sysdep_call_ok then ⟨true, [apkCmd], [msgSysInstalling, msgSysDone]⟩
    else ⟨false, [apkCmd], [msgSysInstalling, msgSysFail]⟩
  else ⟨true, [], [msgSysInstalling, msgSysDone]⟩

/-- `[sys.executable, "-m", "pip", "install", "--upgrade", "pip"]`. -/
def pipUpgradeCmd (exe : String) : List String :=
  [exe, "-m", "pip", "install", "--upgrade", "pip"]

/-- `[sys.executable, "-m", "pip", "install", "pyinstaller"]`. -/
def pyinstallerInstallCmd (exe : String) : List String :=
  [exe, "-m", "pip", "install", "pyinstaller"]

/-- `[sys.executable, "-m", "pip", "install", "-r", "requirements.txt"]`. -/
def reqInstallCmd (exe : String) : List String :=
  [exe, "-m", "pip", "install", "-r", "requirements.txt"]

/-- `install_python_dependencies(is_static)`: pip upgrade, then PyInstaller,
then the manifest install only when `requirements.txt` exists; a failing call
aborts the remaining calls of the step (the `try` block) and yields `False`.
The `is_static` parameter is unused, as in the source. -/
def install_python_dependencies (is_static : Bool) (w : World) : StepResult :=
  if w.pip_upgrade_ok = false then
    ⟨false, [pipUpgradeCmd w.executable], [msgPyInstalling, msgPyFail]⟩
  else if w.pyinstaller_install_ok = false then
    ⟨false, [pipUpgradeCmd w.executable, pyinstallerInstallCmd w.executable],
     [msgPyInstalling, msgPyFail]⟩
  else if w.requirements_exists then
    if w.requirements_install_ok then
      ⟨true, [pipUpgradeCmd w.executable, pyinstallerInstallCmd w.executable,
              reqInstallCmd w.executable], [msgPyInstalling, msgPyDone]⟩
    else
      ⟨false, [pipUpgradeCmd w.executable, pyinstallerInstallCmd w.executable,
               reqInstallCmd w.executable], [msgPyInstalling, msgPyFail]⟩
  else
    ⟨true, [pipUpgradeCmd w.executable, pyinstallerInstallCmd w.executable],
     [msgPyInstalling, msgPyDone]⟩

/-- The output artifact name: the fixed static literal, or
`CloudflareSpeedTest-{os_name}-{arch}` (the f-string of `build_executable`). -/
def output_name (is_static : Bool) (os_name arch : String) : String :=
  if is_static then "CloudflareSpeedTest-linux-arm64-static"
  else "CloudflareSpeedTest-" ++ os_name ++ "-" ++ arch

/-- The base PyInstaller argument list `cmd` of `build_executable` (built
unconditionally, in both modes). -/
def base_cmd (name : String) : List String :=
  ["pyinstaller",
   "--onefile",
   "--name", name,
   "--clean",
   "--noconfirm",
   "--strip",
   "--optimize", "2",
   "--console",
   "--hidden-import", "requests",
   "--hidden-import", "urllib3",
   "--hidden-import", "certifi",
   "--hidden-import", "charset_normalizer",
   "--hidden-import", "idna",
   "--exclude-module", "tkinter",
   "--exclude-module", "matplotlib",
   "--exclude-module", "numpy",
   "--exclude-module", "pandas",
   "--exclude-module", "PIL",
   "--exclude-module", "cv2",
   "cloudflare_speedtest.py"]

/-- The extra arguments `cmd.extend(...)` appends in static mode. -/
def static_extra_args : List String :=
  ["--target-architecture", "arm64", "--distpath", "dist", "--workpath", "build"]

/-- The full PyInstaller argument list: the base list, extended in static mode. -/
def build_cmd (is_static : Bool) (name : String) : List String :=
  base_cmd name ++ (if is_static then static_extra_args else [])

/-- `build_executable(is_static)`. -/
def build_executable (is_static : Bool) (w : World) : StepResult :=
  let p := get_platform_info w.system w.machine
  let name := output_name is_static p.1 p.2
  let banner :=
    if is_static then
      ["\n" ++ sep, "开始静态打包 Linux ARM64 版本（OpenWRT 兼容）",
       "输出文件名: " ++ name, sep]
    else
      ["\n" ++ sep, "开始打包 " ++ p.1 ++ "-" ++ p.2 ++ " 版本",
       "输出文件名: " ++ name, sep]
  let cmd := build_cmd is_static name
  if w.build_call_ok then
    ⟨true, [cmd], banner ++ ["\n" ++ sep, "✓ 打包成功！可执行文件位置: dist/" ++ name, sep]⟩
  else
    ⟨false, [cmd], banner ++ [msgBuildFail]⟩

/-- `is_static = "--static" in sys.argv`. -/
def is_static_flag (w : World) : Bool := w.argv.contains "--static"

/-- The observable outcome of one run of `main()`: the `sys.exit` status, the
subprocess invocations issued in order, and the console lines in order. -/
structure RunResult where
  exit : Nat
  calls : List (List String)
  logs : List String
  deriving Repr, DecidableEq

/-- `main()`: file check, then (static mode only) system dependencies, then
Python dependencies, then the build; the first failing step exits with 1,
full success exits with 0. -/
def main (w : World) : RunResult :=
  let banner := [sep, "Cloudflare SpeedTest 多平台打包工具", sep]
  let s := is_static_flag w
  let c := check_necessary_files w
  if c.1 = false then ⟨1, [], banner ++ c.2⟩
  else
    let sysr := if s then install_system_dependencies true w else ⟨true, [], []⟩
    if sysr.ok = false then ⟨1, sysr.calls, banner ++ c.2 ++ sysr.logs⟩
    else
      let pyr := install_python_dependencies s w
      if pyr.ok = false then
        ⟨1, sysr.calls ++ pyr.calls, banner ++ c.2 ++ sysr.logs ++ pyr.logs⟩
      else
        let br := build_executable s w
        if br.ok = false then
          ⟨1, sysr.calls ++ pyr.calls ++ br.calls,
           banner ++ c.2 ++ sysr.logs ++ pyr.logs ++ br.logs⟩
        else
          ⟨0, sysr.calls ++ pyr.calls ++ br.calls,
           banner ++ c.2 ++ sysr.logs ++ pyr.logs ++ br.logs ++ [msgAllDone]⟩


/-! ## Helper lemmas -/

theorem pyLower_eq_empty_iff (s : String) : pyLower s = "" ↔ s = "" := by
  cases s with
  | mk data => simp [pyLower, String.ext_iff, List.map_eq_nil_iff]

theorem build_executable_calls (b : Bool) (w : World) :
    (build_executable b w).calls
      = [build_cmd b (output_name b (get_platform_info w.system w.machine).1
          (get_platform_info w.system w.machine).2)] := by
  by_cases h : w.build_call_ok <;> simp [build_executable, h]

theorem build_executable_ok (b : Bool) (w : World) :
    (build_executable b w).ok = w.build_call_ok := by
  by_cases h : w.build_call_ok <;> simp [build_executable, h]

theorem reqInstallCmd_not_mem_sys_calls (b : Bool) (w : World) (exe : String) :
    reqInstallCmd exe ∉ (install_system_dependencies b w).calls := by
  unfold install_system_dependencies
  repeat' split
  all_goals simp [aptCmd, apkCmd, reqInstallCmd]

theorem pip_mem_py_calls (b : Bool) (w : World) :
    pipUpgradeCmd w.executable ∈ (install_python_dependencies b w).calls := by
  unfold install_python_dependencies
  repeat' split
  all_goals simp

/-! ## Claim C3: the platform mapping tables and the identity fallback -/

/-- Claim C3 (confirmed): `get_platform_info` maps darwin to macos, linux to
linux, windows to windows; maps x86_64, amd64 and x64 to amd64; arm64 and
aarch64 to arm64; armv7l and armv8l to armhf; and maps every unrecognized raw
value (one whose lowercasing misses the table) to its lowercased self. -/
theorem platform_mapping (s m : String)
    (hs : os_map.lookup (pyLower s) = none)
    (hm : arch_map.lookup (pyLower m) = none) :
    (get_platform_info "darwin" m).1 = "macos"
    ∧ (get_platform_info "linux" m).1 = "linux"
    ∧ (get_platform_info "windows" m).1 = "windows"
    ∧ (get_platform_info s "x86_64").2 = "amd64"
    ∧ (get_platform_info s "amd64").2 = "amd64"
    ∧ (get_platform_info s "x64").2 = "amd64"
    ∧ (get_platform_info s "arm64").2 = "arm64"
    ∧ (get_platform_info s "aarch64").2 = "arm64"
    ∧ (get_platform_info s "armv7l").2 = "armhf"
    ∧ (get_platform_info s "armv8l").2 = "armhf"
    ∧ (get_platform_info s m).1 = pyLower s
    ∧ (get_platform_info s m).2 = pyLower m := by
  refine ⟨?_, ?_, ?_, ?_, ?_, ?_, ?_, ?_, ?_, ?_, ?_, ?_⟩ <;>
    first
      | (simp only [get_platform_info]; decide)
      | simp [get_platform_info, dictGet, hs, hm]

/-- Witness for C3 at the unrecognized raw pair ("plan9", "riscv64"): both
components fall back to the lowercased raw value. -/
theorem platform_mapping_witness :
    (get_platform_info "plan9" "riscv64").1 = pyLower "plan9"
    ∧ (get_platform_info "plan9" "riscv64").2 = pyLower "riscv64" :=
  ⟨(platform_mapping "plan9" "riscv64" (by decide) (by decide)).2.2.2.2.2.2.2.2.2.2.1,
   (platform_mapping "plan9" "riscv64" (by decide) (by decide)).2.2.2.2.2.2.2.2.2.2.2⟩

/-! ## Claim C4: the output artifact name -/

/-- Claim C4 (confirmed): for every host platform, the static-mode output name
is exactly the fixed literal CloudflareSpeedTest-linux-arm64-static (the static
build invocation carries the same fixed name for every `World`), and the
normal-mode output name is CloudflareSpeedTest-os_canonical-arch_canonical. -/
theorem output_name_spec (w : World) :
    (build_executable true w).calls = [build_cmd true "CloudflareSpeedTest-linux-arm64-static"]
    ∧ (build_executable false w).calls
        = [build_cmd false ("CloudflareSpeedTest-" ++ (get_platform_info w.system w.machine).1
            ++ "-" ++ (get_platform_info w.system w.machine).2)]
    ∧ output_name true (get_platform_info w.system w.machine).1
        (get_platform_info w.system w.machine).2 = "CloudflareSpeedTest-linux-arm64-static"
    ∧ output_name false (get_platform_info w.system w.machine).1
        (get_platform_info w.system w.machine).2
      = "CloudflareSpeedTest-" ++ (get_platform_info w.system w.machine).1
          ++ "-" ++ (get_platform_info w.system w.machine).2 := by
  by_cases h : w.build_call_ok <;> simp [build_executable, output_name, h]

/-! ## Claim C5: canonical tokens and the empty raw value -/

/-- Counterexample for C5: on the empty raw OS and architecture strings (which
`platform.system()` / `platform.machine()` report when the host value cannot be
determined) both canonical tokens are empty, so they are not always non-empty. -/
theorem canonical_tokens_empty_input :
    (get_platform_info "" "").1 = "" ∧ (get_platform_info "" "").2 = "" := by decide

/-- Claim C5 as amended (corrected): whenever the raw OS and architecture
strings are non-empty, both canonical tokens produced by `get_platform_info`
are non-empty; the empty raw value passes through to an empty token. -/
theorem canonical_tokens_nonempty (s m : String) (hs : s ≠ "") (hm : m ≠ "") :
    (get_platform_info s m).1 ≠ "" ∧ (get_platform_info s m).2 ≠ "" := by
  have hls : pyLower s ≠ "" := by simpa [pyLower_eq_empty_iff] using hs
  have hlm : pyLower m ≠ "" := by simpa [pyLower_eq_empty_iff] using hm
  constructor
  · rcases h : (os_map.lookup (pyLower s)) with _ | v
    · simpa [get_platform_info, dictGet, h] using hls
    · have hv : v = "macos" ∨ v = "linux" ∨ v = "windows" := by
        simp [os_map, List.lookup] at h
        repeat' split at h
        all_goals simp_all
      simp only [get_platform_info, dictGet, h, Option.getD_some]
      rcases hv with rfl | rfl | rfl <;> decide
  · rcases h : (arch_map.lookup (pyLower m)) with _ | v
    · simpa [get_platform_info, dictGet, h] using hlm
    · have hv : v = "amd64" ∨ v = "arm64" ∨ v = "armhf" := by
        simp [arch_map, List.lookup] at h
        repeat' split at h
        all_goals simp_all
      simp only [get_platform_info, dictGet, h, Option.getD_some]
      rcases hv with rfl | rfl | rfl <;> decide

/-- Witness for the amended C5 at the raw pair ("FreeBSD", "riscv64"). -/
theorem canonical_tokens_nonempty_witness :
    (get_platform_info "FreeBSD" "riscv64").1 ≠ ""
    ∧ (get_platform_info "FreeBSD" "riscv64").2 ≠ "" :=
  canonical_tokens_nonempty "FreeBSD" "riscv64" (by decide) (by decide)


/-! ## Claim C1: module include/exclude lists in the two argument sets -/

/-- Counterexample for C1: the static-mode argument sequence (here at the fixed
static output name, which `build_executable` uses for every host) contains both
the force-include module list and the exclusion module list, so it is false
that it contains neither. -/
theorem static_args_contain_module_lists :
    (["requests", "urllib3", "certifi", "charset_normalizer", "idna"]
        ⊆ build_cmd true (output_name true "linux" "arm64"))
    ∧ (["tkinter", "matplotlib", "numpy", "pandas", "PIL", "cv2"]
        ⊆ build_cmd true (output_name true "linux" "arm64")) := by decide

/-- Claim C1 as amended (corrected): for every PlatformInfo and both build
modes, the argument sequence contains the force-include module list and the
exclusion module list (static mode reuses the full base list), and the
static-mode sequence additionally contains the forced-architecture flag and the
fixed output/work directory flags. -/
theorem build_args_module_lists (system machine : String) (b : Bool) :
    (["--hidden-import", "requests", "urllib3", "certifi", "charset_normalizer", "idna"]
        ⊆ build_cmd b (output_name b (get_platform_info system machine).1
            (get_platform_info system machine).2))
    ∧ (["--exclude-module", "tkinter", "matplotlib", "numpy", "pandas", "PIL", "cv2"]
        ⊆ build_cmd b (output_name b (get_platform_info system machine).1
            (get_platform_info system machine).2))
    ∧ static_extra_args
        ⊆ build_cmd true (output_name true (get_platform_info system machine).1
            (get_platform_info system machine).2) := by
  refine ⟨?_, ?_, ?_⟩ <;>
    · intro x hx
      fin_cases hx <;> cases b <;> simp [build_cmd, base_cmd, static_extra_args]

/-! ## Claim C2: position of the entry script path -/

/-- Counterexample for C2: in static mode the entry script path is not the last
element of the argument sequence (the appended static arguments follow it). -/
theorem static_args_script_not_last :
    ¬ ((build_cmd true (output_name true "linux" "arm64")).getLast?
        = some "cloudflare_speedtest.py") := by decide

/-- Claim C2 as amended (corrected): in normal mode the entry script path
cloudflare_speedtest.py is the last element of the argument sequence; in static
mode the five static arguments are appended after the script path, so the last
element is "build" (the work-directory value). -/
theorem build_args_order (system machine : String) :
    (build_cmd false (output_name false (get_platform_info system machine).1
        (get_platform_info system machine).2)).getLast?
      = some "cloudflare_speedtest.py"
    ∧ build_cmd true (output_name true (get_platform_info system machine).1
        (get_platform_info system machine).2)
      = base_cmd (output_name true (get_platform_info system machine).1
          (get_platform_info system machine).2) ++ static_extra_args
    ∧ (build_cmd true (output_name true (get_platform_info system machine).1
        (get_platform_info system machine).2)).getLast?
      = some "build" := ⟨rfl, rfl, rfl⟩

/-! ## Claim C6: missing entry script halts before any subprocess -/

/-- Claim C6 (confirmed): if the entry script is absent, `main` exits with
status 1 and issues no subprocess invocation at all. -/
theorem missing_entry_halts (w : World) (h : w.entry_exists = false) :
    (main w).exit = 1 ∧ (main w).calls = [] := by
  simp [main, check_necessary_files, h]

/-- Witness for C6 at a concrete world with the entry script absent. -/
theorem missing_entry_halts_witness :
    (main ⟨false, true, "Linux", "x86_64", false, false, ["build.py"], "python3",
           true, true, true, true, true⟩).exit = 1
    ∧ (main ⟨false, true, "Linux", "x86_64", false, false, ["build.py"], "python3",
             true, true, true, true, true⟩).calls = [] :=
  missing_entry_halts _ rfl

/-! ## Claim C7: missing manifest is non-fatal -/

/-- Claim C7 (confirmed): with the entry script present and the manifest
absent, the run warns and continues, the language-dependency step issues
exactly the pip-upgrade and PyInstaller installs (the manifest install is
skipped and appears nowhere in the run), the build step is reached (the last
subprocess invocation is the PyInstaller build command), and the exit status is
decided by the build invocation, provided the packaging-tool install steps (and
the system-dependency step, when static mode is selected) succeed. -/
theorem missing_manifest_continues (w : World)
    (h_entry : w.entry_exists = true)
    (h_req : w.requirements_exists = false)
    (h_pip : w.pip_upgrade_ok = true)
    (h_pyi : w.pyinstaller_install_ok = true)
    (h_sys : is_static_flag w = false ∨ (install_system_dependencies true w).ok = true) :
    msgReqMissing ∈ (main w).logs
    ∧ (install_python_dependencies (is_static_flag w) w).calls
        = [pipUpgradeCmd w.executable, pyinstallerInstallCmd w.executable]
    ∧ (install_python_dependencies (is_static_flag w) w).ok = true
    ∧ reqInstallCmd w.executable ∉ (main w).calls
    ∧ (main w).calls.getLast? = some (build_cmd (is_static_flag w)
        (output_name (is_static_flag w) (get_platform_info w.system w.machine).1
          (get_platform_info w.system w.machine).2))
    ∧ (main w).exit = (if w.build_call_ok then 0 else 1) := by
  have hcheck : check_necessary_files w = (true, [msgReqMissing]) := by
    simp [check_necessary_files, h_entry, h_req]
  have hpystep : install_python_dependencies (is_static_flag w) w
      = ⟨true, [pipUpgradeCmd w.executable, pyinstallerInstallCmd w.executable],
         [msgPyInstalling, msgPyDone]⟩ := by
    simp [install_python_dependencies, h_req, h_pip, h_pyi]
  have hmain : main w =
      ⟨if w.build_call_ok then 0 else 1,
       (if is_static_flag w then (install_system_dependencies true w).calls else [])
         ++ [pipUpgradeCmd w.executable, pyinstallerInstallCmd w.executable]
         ++ (build_executable (is_static_flag w) w).calls,
       [sep, "Cloudflare SpeedTest 多平台打包工具", sep] ++ [msgReqMissing]
         ++ (if is_static_flag w then (install_system_dependencies true w).logs else [])
         ++ [msgPyInstalling, msgPyDone] ++ (build_executable (is_static_flag w) w).logs
         ++ (if w.build_call_ok then [msgAllDone] else [])⟩ := by
    by_cases hs : is_static_flag w
    · rw [hs] at hpystep
      have hsys : (install_system_dependencies true w).ok = true := by
        rcases h_sys with h | h
        · rw [hs] at h; cases h
        · exact h
      by_cases hb : w.build_call_ok <;>
        simp [main, hcheck, hs, hsys, hpystep, build_executable_ok, hb]
    · have hs2 : is_static_flag w = false := by simpa using hs
      rw [hs2] at hpystep
      by_cases hb : w.build_call_ok <;>
        simp [main, hcheck, hs2, hpystep, build_executable_ok, hb]
  refine ⟨?_, by rw [hpystep], by rw [hpystep], ?_, ?_, by rw [hmain]⟩
  · rw [hmain]; simp
  · rw [hmain]
    simp only [List.mem_append, not_or]
    refine ⟨⟨?_, ?_⟩, ?_⟩
    · by_cases hs : is_static_flag w <;> simp [hs, reqInstallCmd_not_mem_sys_calls]
    · simp [pipUpgradeCmd, pyinstallerInstallCmd, reqInstallCmd]
    · rw [build_executable_calls]
      simp [build_cmd, base_cmd, static_extra_args, reqInstallCmd]
  · rw [hmain]
    rw [build_executable_calls]
    simp [List.getLast?_concat]

/-- Witness for C7 at a concrete normal-mode world with the manifest absent
and a succeeding build. -/
theorem missing_manifest_continues_witness :
    msgReqMissing ∈ (main ⟨true, false, "Linux", "x86_64", false, false, ["build.py"],
        "python3", true, true, true, true, true⟩).logs
    ∧ (main ⟨true, false, "Linux", "x86_64", false, false, ["build.py"],
        "python3", true, true, true, true, true⟩).exit
      = (if (true : Bool) then 0 else 1) :=
  ⟨(missing_manifest_continues _ rfl rfl rfl rfl (Or.inl (by decide))).1,
   (missing_manifest_continues _ rfl rfl rfl rfl (Or.inl (by decide))).2.2.2.2.2⟩


/-! ## Claim C8: no package-manager marker in static mode -/

/-- Counterexample for C8: at a static-mode Linux world with neither marker
present, the system-dependency step invokes no external command and returns
success, but it does not log a skip warning: no printed line contains the
warning sign character (it prints its normal completion message instead). -/
theorem no_marker_no_skip_warning :
    (install_system_dependencies true ⟨true, true, "Linux", "aarch64", false, false,
        ["build.py", "--static"], "python3", true, true, true, true, true⟩).calls = []
    ∧ (install_system_dependencies true ⟨true, true, "Linux", "aarch64", false, false,
        ["build.py", "--static"], "python3", true, true, true, true, true⟩).ok = true
    ∧ ¬ (∃ msg ∈ (install_system_dependencies true ⟨true, true, "Linux", "aarch64",
          false, false, ["build.py", "--static"], "python3", true, true, true, true,
          true⟩).logs, '⚠' ∈ msg.data) := by decide

/-- Claim C8 as amended (corrected): when static mode is requested on a Linux
host and neither marker path is present, the system-dependency step invokes no
external command and returns success — printing its normal completion message
rather than a skip warning — and the orchestrator proceeds to the
language-dependency install and (when that step succeeds) the build. -/
theorem no_marker_skip_succeeds (w : World)
    (h_linux : pyLower w.system = "linux")
    (h_apt : w.apt_exists = false)
    (h_apk : w.apk_exists = false)
    (h_entry : w.entry_exists = true)
    (h_static : is_static_flag w = true)
    (h_py : (install_python_dependencies true w).ok = true) :
    (install_system_dependencies true w).calls = []
    ∧ (install_system_dependencies true w).ok = true
    ∧ (install_system_dependencies true w).logs = [msgSysInstalling, msgSysDone]
    ∧ pipUpgradeCmd w.executable ∈ (main w).calls
    ∧ (main w).calls.getLast? = some (build_cmd true "CloudflareSpeedTest-linux-arm64-static") := by
  have hsys : install_system_dependencies true w
      = ⟨true, [], [msgSysInstalling, msgSysDone]⟩ := by
    simp [install_system_dependencies, h_linux, h_apt, h_apk]
  have hmain : (main w).calls
      = (install_python_dependencies true w).calls
          ++ [build_cmd true "CloudflareSpeedTest-linux-arm64-static"] := by
    by_cases hreq : w.requirements_exists <;> by_cases hb : w.build_call_ok <;>
      simp [main, check_necessary_files, h_entry, hreq, h_static, hsys, h_py,
        build_executable, output_name, hb]
  refine ⟨by rw [hsys], by rw [hsys], by rw [hsys], ?_, ?_⟩
  · rw [hmain]
    simp [pip_mem_py_calls]
  · rw [hmain]
    simp [List.getLast?_concat]

/-- Witness for the amended C8 at a concrete static-mode world with both
markers absent. -/
theorem no_marker_skip_succeeds_witness :
    (install_system_dependencies true ⟨true, true, "Linux", "aarch64", false, false,
        ["build.py", "--static"], "python3", true, true, true, true, true⟩).calls = []
    ∧ (install_system_dependencies true ⟨true, true, "Linux", "aarch64", false, false,
        ["build.py", "--static"], "python3", true, true, true, true, true⟩).ok = true
    ∧ (install_system_dependencies true ⟨true, true, "Linux", "aarch64", false, false,
        ["build.py", "--static"], "python3", true, true, true, true, true⟩).logs
      = [msgSysInstalling, msgSysDone]
    ∧ pipUpgradeCmd "python3" ∈ (main ⟨true, true, "Linux", "aarch64", false, false,
        ["build.py", "--static"], "python3", true, true, true, true, true⟩).calls
    ∧ (main ⟨true, true, "Linux", "aarch64", false, false, ["build.py", "--static"],
        "python3", true, true, true, true, true⟩).calls.getLast?
      = some (build_cmd true "CloudflareSpeedTest-linux-arm64-static") :=
  no_marker_skip_succeeds _ (by decide) rfl rfl rfl (by decide) (by decide)

/-! ## Claim C9: orchestration order, first-failure halt, exit statuses -/

/-- Claim C9 (confirmed): `main` exits with status 0 or 1 and with nothing
else; it exits 0 exactly when the file check, the system-dependency step (in
static mode), the language-dependency step and the build all succeed; and its
subprocess invocations are exactly those of the steps up to and including the
first failing one, in step order — a failing file check issues no invocation,
a failing system-dependency step cuts off the language-dependency and build
invocations, and a failing language-dependency step cuts off the build. -/
theorem orchestrator_exit_and_order (w : World) :
    ((main w).exit = 0 ∨ (main w).exit = 1)
    ∧ ((main w).exit = 0 ↔
        ((check_necessary_files w).1 = true
          ∧ (is_static_flag w = false ∨ (install_system_dependencies true w).ok = true)
          ∧ (install_python_dependencies (is_static_flag w) w).ok = true
          ∧ (build_executable (is_static_flag w) w).ok = true))
    ∧ ((main w).calls =
        if (check_necessary_files w).1 = false then []
        else if is_static_flag w ∧ (install_system_dependencies true w).ok = false then
          (install_system_dependencies true w).calls
        else
          (if is_static_flag w then (install_system_dependencies true w).calls else [])
          ++ (if (install_python_dependencies (is_static_flag w) w).ok = false then
                (install_python_dependencies (is_static_flag w) w).calls
              else (install_python_dependencies (is_static_flag w) w).calls
                ++ (build_executable (is_static_flag w) w).calls)) := by
  by_cases hc : (check_necessary_files w).1 <;>
    by_cases hs : is_static_flag w <;>
      by_cases hsys : (install_system_dependencies true w).ok <;>
        by_cases hpy : (install_python_dependencies (is_static_flag w) w).ok <;>
          by_cases hb : (build_executable (is_static_flag w) w).ok <;>
            simp_all [main]

/-! ## Claim C10: the apt branch passes the shell conjunction verbatim -/

/-- Claim C10 (confirmed): in static mode on a Linux host with /etc/apt
present, the system-dependency step issues exactly one subprocess invocation,
whose argument list is the apt-update words followed by the literal token &&
and the words of the second apt command, all as ordinary arguments of the one
invocation. -/
theorem apt_single_invocation (w : World)
    (h_linux : pyLower w.system = "linux")
    (h_apt : w.apt_exists = true) :
    (install_system_dependencies true w).calls = [aptCmd]
    ∧ aptCmd = ["sudo", "apt", "update"] ++ ["&&"] ++ ["sudo", "apt", "install", "-y",
        "build-essential", "zlib1g-dev", "openssl-dev", "musl-dev"]
    ∧ "&&" ∈ aptCmd := by
  by_cases h3 : w.sysdep_call_ok <;>
    simp [install_system_dependencies, h_linux, h_apt, h3, aptCmd]

/-- Witness for C10 at a concrete static-mode Linux world with /etc/apt
present. -/
theorem apt_single_invocation_witness :
    (install_system_dependencies true ⟨true, true, "Linux", "x86_64", true, false,
        ["build.py", "--static"], "python3", true, true, true, true, true⟩).calls
      = [aptCmd]
    ∧ aptCmd = ["sudo", "apt", "update"] ++ ["&&"] ++ ["sudo", "apt", "install", "-y",
        "build-essential", "zlib1g-dev", "openssl-dev", "musl-dev"]
    ∧ "&&" ∈ aptCmd :=
  apt_single_invocation _ (by decide) rfl

end BuildPy
